import Mathlib

/-!
Verification of `src/Evolution.py` (FIRESONG): a shallow embedding of the
evolution-law selector, the four evolution laws, and the
`SourcePopulation` / `TransientSourcePopulation` computation engine.

Modelling conventions:
* Python floats are modelled by real numbers `ℝ` (exact arithmetic); the
  grid arithmetic of `np.arange` is modelled over `ℚ` so that it stays
  computable.
* `scipy.integrate.quad` is an external numerical routine; it is modelled
  by an explicit integrator argument of type `Quad`, instantiated with the
  mathematical interval integral (`realQuad`) where a claim is about the
  integral's value.
* `cosmolopy` is the external cosmology collaborator; it is modelled by a
  `CosmologyProvider` record of the three functions the code consumes.
* Python exceptions are modelled by `Except PyError`.
-/

noncomputable section

open Real

/-- Python exceptions relevant to `Evolution.py`.  The constructors
`samplingTableNotBuilt` and `unsupportedEvolutionLaw` are the exception
names used by the specification's error taxonomy; they let us state (and
refute) the spec's error-type claims.  The code itself never raises them. -/
inductive PyError
  | typeError (msg : String)
  | notImplementedError (msg : String)
  | attributeError (attr : String)
  | indexError
  | samplingTableNotBuilt
  | unsupportedEvolutionLaw (msg : String)
  deriving DecidableEq

/-- The four concrete evolution-law classes of `Evolution.py`. -/
inductive EvolClass
  | noEvolution
  | hb2006sfr
  | ymkbh2008sfr
  | cc2015snr
  deriving DecidableEq

/-- `Evolution.__init__` is declared as `def __init__():` — with zero
parameters, not even `self` (src/Evolution.py line 25). -/
def Evolution.initParamCount : Nat := 0

/-- None of the four concrete classes declares an `__init__` of its own, so
attribute lookup on each resolves to the inherited `Evolution.__init__`. -/
def initParamCountOf : EvolClass → Nat := fun _ => Evolution.initParamCount

/-- Python instantiation `cls()` calls `cls.__init__(obj)`: one positional
argument (the fresh object) is passed, and CPython raises `TypeError` when
the declared parameter count of `__init__` is not one. -/
def instantiate (c : EvolClass) : Except PyError EvolClass :=
  if initParamCountOf c = 1 then Except.ok c
  else Except.error (PyError.typeError
    ("__init__() takes " ++ toString (initParamCountOf c) ++
      " positional arguments but 1 was given"))

/-- The `evolutions` dictionary of `get_evolution` (src/Evolution.py
lines 12-16). -/
def evolutionsDict : List (String × EvolClass) :=
  [("NoEvolution", EvolClass.noEvolution),
   ("HB2006SFR", EvolClass.hb2006sfr),
   ("YMKBH2008SFR", EvolClass.ymkbh2008sfr),
   ("CC2015SNR", EvolClass.cc2015snr)]

/-- The supported evolution-law names (the dictionary's keys). -/
def evolutionsKeys : List String := evolutionsDict.map Prod.fst

/-- `get_evolution(evol)` (src/Evolution.py lines 11-21): an unknown name
raises `NotImplementedError("Source evolution " + evol + " not
implemented.")`; a known name is looked up in the dictionary and the class
is instantiated. -/
def get_evolution (evol : String) : Except PyError EvolClass :=
  match evolutionsDict.lookup evol with
  | none => Except.error (PyError.notImplementedError
      ("Source evolution " ++ evol ++ " not implemented."))
  | some c => instantiate c

/-- `true` exactly when the call outcome is the spec's
`UnsupportedEvolutionLaw` error. -/
def raisesUnsupportedEvolutionLaw : Except PyError EvolClass → Bool
  | Except.error (PyError.unsupportedEvolutionLaw _) => true
  | _ => false

/-! ### The four evolution laws as functions on `ℝ` -/

/-- `Evolution.__call__(z) = parametrization(log10(1+z))`
(src/Evolution.py lines 31-32), shared by all laws except the Yuksel one,
which overrides `__call__`. -/
def Evolution.call (p : ℝ → ℝ) (z : ℝ) : ℝ := p (Real.logb 10 (1 + z))

/-- `NoEvolution.parametrization` (line 36-37): constant 1. -/
def NoEvolution.parametrization (_x : ℝ) : ℝ := 1

/-- `NoEvolution` evaluated at a redshift `z`. -/
def NoEvolution.evaluate (z : ℝ) : ℝ := Evolution.call NoEvolution.parametrization z

/-- `HopkinsBeacom2006StarFormationRate.parametrization` (lines 44-50):
three-segment power law in `x = log10(1+z)`.  The source's three `if`
statements carry explicit range guards (`x < 0.30963`,
`0.30963 <= x < 0.73878`, `x >= 0.73878`); the ranges are exhaustive and
mutually exclusive, so the nested if-else below is the same function. -/
def HopkinsBeacom2006StarFormationRate.parametrization (x : ℝ) : ℝ :=
  if x < 0.30963 then (10 : ℝ) ^ (3.28 * x - 1.82)
  else if x < 0.73878 then (10 : ℝ) ^ (-0.26 * x - 0.724)
  else (10 : ℝ) ^ (-8.0 * x + 4.99)

/-- `HB2006SFR` evaluated at a redshift `z`. -/
def HopkinsBeacom2006StarFormationRate.evaluate (z : ℝ) : ℝ :=
  Evolution.call HopkinsBeacom2006StarFormationRate.parametrization z

/-- `YukselEtAl2008StarFormationRate.parametrization` (lines 61-74), with
the source's constants inlined: `a = 3.4`, `b = -0.3`, `c = -3.5`,
`B = 5160.63662037`, `C = 9.06337604231`, `eta = -10`, `r0 = 0.02`, and the
value `r0 * (x^(a*eta) + (x/B)^(b*eta) + (x/C)^(c*eta))^(1/eta)`. -/
def YukselEtAl2008StarFormationRate.parametrization (x : ℝ) : ℝ :=
  0.02 * (x ^ ((3.4 : ℝ) * (-10 : ℝ))
      + (x / 5160.63662037) ^ ((-0.3 : ℝ) * (-10 : ℝ))
      + (x / 9.06337604231) ^ ((-3.5 : ℝ) * (-10 : ℝ))) ^ ((1 : ℝ) / (-10 : ℝ))

/-- The Yuksel law overrides `__call__` (lines 58-59) to pass the unshifted
argument `1 + z` rather than `log10(1+z)`. -/
def YukselEtAl2008StarFormationRate.evaluate (z : ℝ) : ℝ :=
  YukselEtAl2008StarFormationRate.parametrization (1 + z)

/-- `CandelsClash2015SNRate.parametrization` (lines 78-84), constants
`a = 0.015`, `b = 1.5`, `c = 5.0`, `d = 6.1` inlined:
`a*(10^x)^c / ((10^x/b)^d + 1)`. -/
def CandelsClash2015SNRate.parametrization (x : ℝ) : ℝ :=
  0.015 * ((10 : ℝ) ^ x) ^ (5.0 : ℝ) / (((10 : ℝ) ^ x / 1.5) ^ (6.1 : ℝ) + 1)

/-- `CC2015SNR` evaluated at a redshift `z`. -/
def CandelsClash2015SNRate.evaluate (z : ℝ) : ℝ :=
  Evolution.call CandelsClash2015SNRate.parametrization z

/-! ### Claims C1, C5, C10 -/

/-- C1: for every name in the supported set, `get_evolution` raises
`TypeError` — `Evolution.__init__` is declared with no parameters (not even
`self`), all four concrete variants inherit it, so instantiating any of
them fails; consequently no evolution-law value can ever be constructed
through the public selector (for any string the result is an error). -/
theorem get_evolution_typeError_all_supported :
    (get_evolution "NoEvolution" = Except.error (PyError.typeError
      "__init__() takes 0 positional arguments but 1 was given")) ∧
    (get_evolution "HB2006SFR" = Except.error (PyError.typeError
      "__init__() takes 0 positional arguments but 1 was given")) ∧
    (get_evolution "YMKBH2008SFR" = Except.error (PyError.typeError
      "__init__() takes 0 positional arguments but 1 was given")) ∧
    (get_evolution "CC2015SNR" = Except.error (PyError.typeError
      "__init__() takes 0 positional arguments but 1 was given")) ∧
    ∀ s : String, ∃ e : PyError, get_evolution s = Except.error e := by
  refine ⟨rfl, rfl, rfl, rfl, ?_⟩
  intro s
  unfold get_evolution
  cases h : evolutionsDict.lookup s with
  | none => exact ⟨_, rfl⟩
  | some c => exact ⟨_, rfl⟩

/-- C5 counterexample: an unknown evolution-law name does not fail with
`UnsupportedEvolutionLaw`; the code raises `NotImplementedError` with a
message that names the requested identifier only (it does not list the
supported set). -/
theorem get_evolution_unknown_error_cex :
    get_evolution "Unknown" = Except.error (PyError.notImplementedError
      "Source evolution Unknown not implemented.") ∧
    raisesUnsupportedEvolutionLaw (get_evolution "Unknown") = false := by
  exact ⟨rfl, rfl⟩

/-- C5 (amended): for every name outside the supported set, selection fails
fast with `NotImplementedError`, whose message names the requested
identifier (but neither the supported set nor an
`UnsupportedEvolutionLaw` error). -/
theorem get_evolution_unknown_notImplementedError (evol : String)
    (h : evol ∉ evolutionsKeys) :
    get_evolution evol = Except.error (PyError.notImplementedError
      ("Source evolution " ++ evol ++ " not implemented.")) := by
  have h4 : evol ≠ "NoEvolution" ∧ evol ≠ "HB2006SFR" ∧
      evol ≠ "YMKBH2008SFR" ∧ evol ≠ "CC2015SNR" := by
    simpa [evolutionsKeys, evolutionsDict] using h
  simp [get_evolution, evolutionsDict, List.lookup,
    beq_false_of_ne h4.1, beq_false_of_ne h4.2.1,
    beq_false_of_ne h4.2.2.1, beq_false_of_ne h4.2.2.2]

/-- C5 witness: the amended theorem at the concrete unknown name
`"Unknown"`. -/
theorem get_evolution_unknown_notImplementedError_witness :
    get_evolution "Unknown" = Except.error (PyError.notImplementedError
      "Source evolution Unknown not implemented.") :=
  get_evolution_unknown_notImplementedError "Unknown" (by decide)

/-- C10: each of the four evolution laws is nonnegative on `z ∈ [0, 10]`,
and `NoEvolution` is exactly 1 at every redshift. -/
theorem evolution_laws_nonneg_and_noEvolution_one :
    (∀ z : ℝ, 0 ≤ z → z ≤ 10 →
      0 ≤ NoEvolution.evaluate z ∧
      0 ≤ HopkinsBeacom2006StarFormationRate.evaluate z ∧
      0 ≤ YukselEtAl2008StarFormationRate.evaluate z ∧
      0 ≤ CandelsClash2015SNRate.evaluate z) ∧
    ∀ z : ℝ, NoEvolution.evaluate z = 1 := by
  constructor
  · intro z hz _
    refine ⟨zero_le_one, ?_, ?_, ?_⟩
    · unfold HopkinsBeacom2006StarFormationRate.evaluate Evolution.call
        HopkinsBeacom2006StarFormationRate.parametrization
      split
      · positivity
      · split
        · positivity
        · positivity
    · unfold YukselEtAl2008StarFormationRate.evaluate
        YukselEtAl2008StarFormationRate.parametrization
      have h1 : (0 : ℝ) < 1 + z := by linarith
      positivity
    · unfold CandelsClash2015SNRate.evaluate Evolution.call
        CandelsClash2015SNRate.parametrization
      positivity
  · intro z
    rfl

/-! ### Cosmology provider and the SourcePopulation engine -/

/-- The external `cosmolopy.distance` collaborator: the three functions of
redshift the code consumes (with the cosmological parameters already
applied, as the code always passes `**self.cosmology`). -/
structure CosmologyProvider where
  luminosity_distance : ℝ → ℝ
  comoving_volume : ℝ → ℝ
  diff_comoving_volume : ℝ → ℝ

/-- A `SourcePopulation` instance: it owns an evolution law (`__call__` of
the chosen `Evolution` object, a function of redshift) and the cosmology
provider. -/
structure SourcePopulation where
  evolution : ℝ → ℝ
  cosmology : CosmologyProvider

/-- `self.Mpc2cm = 3.086e24` (src/Evolution.py line 90). -/
def Mpc2cm : ℝ := 3.086e24

/-- `self.GeV_per_sec_2_ergs_per_year = 50526` (line 91). -/
def GeV_per_sec_2_ergs_per_year : ℝ := 50526

/-- `self._zlocal = 0.01` (line 89). -/
def zlocal : ℝ := 0.01

/-- `self.dL1 = self.LuminosityDistance(1.)`, cached at construction
(line 96). -/
def SourcePopulation.dL1 (pop : SourcePopulation) : ℝ :=
  pop.cosmology.luminosity_distance 1

/-- `LuminosityDistance(z)` (lines 130-132): wrapper over the provider. -/
def SourcePopulation.LuminosityDistance (pop : SourcePopulation) (z : ℝ) : ℝ :=
  pop.cosmology.luminosity_distance z

/-- `RedshiftDistribution(z) = 4*pi*evolution(z)*diff_comoving_volume(z)`
(lines 98-101). -/
def SourcePopulation.RedshiftDistribution (pop : SourcePopulation) (z : ℝ) : ℝ :=
  4 * π * pop.evolution z * pop.cosmology.diff_comoving_volume z

/-- `TransientSourcePopulation` overrides `RedshiftDistribution`
(lines 210-211): the base-class value times `1/(1+z)`. -/
def TransientSourcePopulation.RedshiftDistribution
    (pop : SourcePopulation) (z : ℝ) : ℝ :=
  pop.RedshiftDistribution z * (1 / (1 + z))

/-- The type of the external numerical integrator
(`scipy.integrate.quad(f, a, b)[0]`): integrand, lower bound, upper
bound. -/
def Quad : Type := (ℝ → ℝ) → ℝ → ℝ → ℝ

/-- The idealized integrator: `scipy.integrate.quad` modelled as the
mathematical interval integral. -/
def realQuad : Quad := fun f a b => ∫ x in a..b, f x

/-- `RedshiftIntegral(zmax)` (lines 103-108) generic in the redshift
distribution `R`, because Python's `self.RedshiftDistribution` dispatches
dynamically (`TransientSourcePopulation` overrides it while inheriting
this method): the integral of `R` from 0 to `zmax`. -/
def RedshiftIntegralR (q : Quad) (R : ℝ → ℝ) (zmax : ℝ) : ℝ := q R 0 zmax

/-- `RedshiftIntegral` as called on a plain `SourcePopulation`. -/
def SourcePopulation.RedshiftIntegral (pop : SourcePopulation) (q : Quad)
    (zmax : ℝ) : ℝ :=
  RedshiftIntegralR q pop.RedshiftDistribution zmax

/-- `RedshiftIntegral` as called on a `TransientSourcePopulation` (the
inherited method sees the overridden distribution). -/
def TransientSourcePopulation.RedshiftIntegral (pop : SourcePopulation)
    (q : Quad) (zmax : ℝ) : ℝ :=
  RedshiftIntegralR q (TransientSourcePopulation.RedshiftDistribution pop) zmax

/-- `Nsources(density, zmax)` (lines 134-147), generic in the dispatched
redshift distribution `R`:
`density * comoving_volume(_zlocal) / (RedshiftIntegral(_zlocal) / RedshiftIntegral(zmax))`. -/
def NsourcesR (q : Quad) (pop : SourcePopulation) (R : ℝ → ℝ)
    (density zmax : ℝ) : ℝ :=
  let vlocal := pop.cosmology.comoving_volume zlocal
  density * vlocal / (RedshiftIntegralR q R zlocal / RedshiftIntegralR q R zmax)

/-- `Nsources` as called on a plain `SourcePopulation`. -/
def SourcePopulation.Nsources (pop : SourcePopulation) (q : Quad)
    (density zmax : ℝ) : ℝ :=
  NsourcesR q pop pop.RedshiftDistribution density zmax

/-- The spectral integrand `E * (E/E0)**(-abs(index))` shared by
`Flux2Lumi` and `Lumi2Flux` (lines 159 and 178). -/
def spectralIntegrand (index E0 : ℝ) (E : ℝ) : ℝ := E * (E / E0) ^ (-|index|)

/-- `Flux2Lumi(fluxnorm, index, emin, emax, E0=1e5)` (lines 149-165):
`fluxnorm / E0**2 * flux_integral * GeV_per_sec_2_ergs_per_year * 4 * pi
* (dL1*Mpc2cm)**2`. -/
def SourcePopulation.Flux2Lumi (pop : SourcePopulation) (q : Quad)
    (fluxnorm index emin emax : ℝ) (E0 : ℝ := 1e5) : ℝ :=
  let flux_integral := q (spectralIntegrand index E0) emin emax
  fluxnorm / E0 ^ 2 * flux_integral * GeV_per_sec_2_ergs_per_year *
    4 * π * (pop.dL1 * Mpc2cm) ^ 2

/-- `Lumi2Flux(luminosity, index, emin, emax, E0=1e5)` (lines 167-183):
`luminosity / 4 / pi / (dL1*Mpc2cm)**2 / GeV_per_sec_2_ergs_per_year
/ flux_integral * E0**2`. -/
def SourcePopulation.Lumi2Flux (pop : SourcePopulation) (q : Quad)
    (luminosity index emin emax : ℝ) (E0 : ℝ := 1e5) : ℝ :=
  let flux_integral := q (spectralIntegrand index E0) emin emax
  luminosity / 4 / π / (pop.dL1 * Mpc2cm) ^ 2 /
    GeV_per_sec_2_ergs_per_year / flux_integral * E0 ^ 2

/-- `StandardCandleSources(fluxnorm, density, zmax, index)`
(lines 185-205), generic in the dispatched redshift distribution `R`.  The
denominator integral is written with the literal bounds 0 and 10 of the
source. -/
def StandardCandleSourcesR (q : Quad) (pop : SourcePopulation) (R : ℝ → ℝ)
    (fluxnorm density zmax index : ℝ) : ℝ :=
  let norm := RedshiftIntegralR q R zmax
  let Ntotal := NsourcesR q pop R density zmax
  let all_sky_flux := 4 * π * fluxnorm
  all_sky_flux / Ntotal / pop.dL1 ^ 2 /
    q (fun z => (1 + z) ^ (-|index| + 2) / pop.LuminosityDistance z ^ 2 *
        R z / norm) 0 10

/-- `StandardCandleSources` as called on a plain `SourcePopulation`. -/
def SourcePopulation.StandardCandleSources (pop : SourcePopulation) (q : Quad)
    (fluxnorm density zmax index : ℝ) : ℝ :=
  StandardCandleSourcesR q pop pop.RedshiftDistribution fluxnorm density zmax index

/-- The `TransientSourcePopulation.StandardCandleSources` override
(lines 213-230), generic in the dispatched redshift distribution: the
all-sky flux carries the `yr2sec = 86400*365` factor, the spectral
exponent is `-|index|+3`, and the denominator integral again runs over the
literal bounds 0 and 10. -/
def TransientStandardCandleSourcesR (q : Quad) (pop : SourcePopulation)
    (R : ℝ → ℝ) (fluxnorm density zmax index : ℝ) : ℝ :=
  let norm := RedshiftIntegralR q R zmax
  let Ntotal := NsourcesR q pop R density zmax
  let yr2sec : ℝ := 86400 * 365
  let all_sky_flux := 4 * π * fluxnorm * yr2sec
  all_sky_flux / Ntotal / pop.dL1 ^ 2 /
    q (fun z => (1 + z) ^ (-|index| + 3) / pop.LuminosityDistance z ^ 2 *
        R z / norm) 0 10

/-- `StandardCandleSources` as called on a `TransientSourcePopulation`:
every inherited method sees the overridden `RedshiftDistribution`. -/
def TransientSourcePopulation.StandardCandleSources (pop : SourcePopulation)
    (q : Quad) (fluxnorm density zmax index : ℝ) : ℝ :=
  TransientStandardCandleSourcesR q pop
    (TransientSourcePopulation.RedshiftDistribution pop) fluxnorm density zmax index

/-- A concrete provider whose three functions are constantly 1, used to
instantiate theorems at concrete inputs. -/
def constProvider : CosmologyProvider :=
  { luminosity_distance := fun _ => 1
    comoving_volume := fun _ => 1
    diff_comoving_volume := fun _ => 1 }

/-- A concrete population: `NoEvolution` (constant 1) with the constant
provider. -/
def demoPop : SourcePopulation :=
  { evolution := fun _ => 1, cosmology := constProvider }

/-- A trivial integrator oracle returning 0 on every call. -/
def zeroQuad : Quad := fun _ _ _ => 0

/-- An integrator oracle returning 1 on every call. -/
def oneQuad : Quad := fun _ _ _ => 1

/-! ### Claims C6, C7, C9 -/

/-- C9: for every redshift `z ≥ 0`,
`TransientSourcePopulation.RedshiftDistribution z` is the base
`SourcePopulation.RedshiftDistribution z` multiplied by `1/(1+z)`. -/
theorem transient_redshift_distribution_time_dilation
    (pop : SourcePopulation) (z : ℝ) (_hz : 0 ≤ z) :
    TransientSourcePopulation.RedshiftDistribution pop z =
      pop.RedshiftDistribution z * (1 / (1 + z)) := rfl

/-- C9 witness: the time-dilation factor at the concrete population
`demoPop` and redshift `z = 2`. -/
theorem transient_redshift_distribution_time_dilation_witness :
    TransientSourcePopulation.RedshiftDistribution demoPop 2 =
      demoPop.RedshiftDistribution 2 * (1 / (1 + 2)) :=
  transient_redshift_distribution_time_dilation demoPop 2 (by norm_num)

/-- C6: `Lumi2Flux` is the exact algebraic inverse of `Flux2Lumi` — the
round trip returns the original flux normalization exactly (hence in
particular to relative tolerance `1e-9`), whenever the shared spectral
integral, the cached `dL1` and `E0` are nonzero (both directions evaluate
the same integral expression, so the integrator's numerical error cancels
identically). -/
theorem lumi2flux_flux2lumi_roundtrip (pop : SourcePopulation) (q : Quad)
    (F index emin emax E0 : ℝ)
    (hI : q (spectralIntegrand index E0) emin emax ≠ 0)
    (hd : pop.dL1 ≠ 0) (hE0 : E0 ≠ 0) :
    pop.Lumi2Flux q (pop.Flux2Lumi q F index emin emax E0) index emin emax E0
      = F := by
  unfold SourcePopulation.Lumi2Flux SourcePopulation.Flux2Lumi
  have hpi : (π : ℝ) ≠ 0 := Real.pi_ne_zero
  have hM : (Mpc2cm : ℝ) ≠ 0 := by norm_num [Mpc2cm]
  have hG : (GeV_per_sec_2_ergs_per_year : ℝ) ≠ 0 := by
    norm_num [GeV_per_sec_2_ergs_per_year]
  field_simp
  ring

/-- C6 witness: the round trip at the representative inputs
`F = 1e-8`, `index = 2.0`, `emin = 1e2`, `emax = 1e7`, `E0 = 1e5`, with the
concrete population `demoPop` and the concrete integrator `oneQuad`. -/
theorem lumi2flux_flux2lumi_roundtrip_witness :
    demoPop.Lumi2Flux oneQuad
      (demoPop.Flux2Lumi oneQuad 1e-8 2.0 1e2 1e7 1e5) 2.0 1e2 1e7 1e5 = 1e-8 :=
  lumi2flux_flux2lumi_roundtrip demoPop oneQuad 1e-8 2.0 1e2 1e7 1e5
    one_ne_zero one_ne_zero (by norm_num)

/-- C7: in `StandardCandleSources` of both `SourcePopulation` and
`TransientSourcePopulation`, the denominator normalization integral is
taken over the fixed interval `[0, 10]` for every value of `zmax`:
whenever two integrators agree on integrals over `[0, 10]`, and the
`RedshiftIntegral` values at `_zlocal` agree and the ones at the two
(arbitrary, possibly different) horizons `z1`, `z2` agree, the two
`StandardCandleSources` results coincide — i.e. `zmax` enters only through
`RedshiftIntegral(zmax)`, never through the denominator's integration
bounds. -/
theorem standardCandle_fixed_integration_bound
    (q q' : Quad) (pop : SourcePopulation) (f d z1 z2 index : ℝ)
    (h10 : ∀ g : ℝ → ℝ, q g 0 10 = q' g 0 10)
    (hb : pop.RedshiftIntegral q z1 = pop.RedshiftIntegral q' z2)
    (hbl : pop.RedshiftIntegral q zlocal = pop.RedshiftIntegral q' zlocal)
    (ht : TransientSourcePopulation.RedshiftIntegral pop q z1 =
      TransientSourcePopulation.RedshiftIntegral pop q' z2)
    (htl : TransientSourcePopulation.RedshiftIntegral pop q zlocal =
      TransientSourcePopulation.RedshiftIntegral pop q' zlocal) :
    pop.StandardCandleSources q f d z1 index =
        pop.StandardCandleSources q' f d z2 index ∧
      TransientSourcePopulation.StandardCandleSources pop q f d z1 index =
        TransientSourcePopulation.StandardCandleSources pop q' f d z2 index := by
  unfold SourcePopulation.RedshiftIntegral at hb hbl
  unfold TransientSourcePopulation.RedshiftIntegral at ht htl
  constructor
  · unfold SourcePopulation.StandardCandleSources StandardCandleSourcesR NsourcesR
    simp only [hb, hbl, h10]
  · unfold TransientSourcePopulation.StandardCandleSources
      TransientStandardCandleSourcesR NsourcesR
    simp only [ht, htl, h10]

/-- C7 witness: the fixed-bound property applied at the concrete
integrator `zeroQuad` (used twice), the concrete population `demoPop`, and
the two different horizons `z1 = 1`, `z2 = 2`. -/
theorem standardCandle_fixed_integration_bound_witness :
    demoPop.StandardCandleSources zeroQuad 1 1 1 2 =
        demoPop.StandardCandleSources zeroQuad 1 1 2 2 ∧
      TransientSourcePopulation.StandardCandleSources demoPop zeroQuad 1 1 1 2 =
        TransientSourcePopulation.StandardCandleSources demoPop zeroQuad 1 1 2 2 :=
  standardCandle_fixed_integration_bound zeroQuad zeroQuad demoPop 1 1 1 2 2
    (fun _ => rfl) rfl rfl rfl rfl

/-! ### The redshift sampling table (`setup_redshift_cdf`, `sample_redshift`) -/

/-- `np.arange(start, stop, step)` over exact rationals (positive `step`):
`⌈(stop - start)/step⌉` evenly spaced values `start + i*step`. -/
def arange (start stop step : ℚ) : List ℚ :=
  (List.range (⌈(stop - start) / step⌉).toNat).map
    (fun i : ℕ => start + (i : ℚ) * step)

/-- The redshift bin edges of `setup_redshift_cdf` (line 111):
`np.arange(zmin, zmax, zmax/float(bins))`. -/
def redshift_bins (zmin zmax : ℚ) (bins : ℕ) : List ℚ :=
  arange zmin zmax (zmax / (bins : ℚ))

/-- `np.cumsum`: the list of running sums. -/
def cumsum : List ℝ → List ℝ
  | [] => []
  | x :: xs => x :: (cumsum xs).map (fun y => x + y)

/-- The normalized cumulative table of `setup_redshift_cdf`
(lines 114-117): the running sums of the point-evaluated
`RedshiftDistribution`, divided by the last running sum
(`RedshiftCDF / RedshiftCDF[-1]`). -/
def redshift_cdf_list (pop : SourcePopulation) (zmin zmax : ℚ) (bins : ℕ) :
    List ℝ :=
  let RedshiftPDF := (redshift_bins zmin zmax bins).map
    (fun zb : ℚ => pop.RedshiftDistribution (zb : ℝ))
  let RedshiftCDF := cumsum RedshiftPDF
  RedshiftCDF.map (fun y => y / (RedshiftCDF.getLast?.getD 0))

/-- The sampling-table attributes of a `SourcePopulation` instance.  A
`none` field is an attribute that has never been assigned (reading it
raises `AttributeError`).  The field `redshif_cdf` is the misspelled
attribute name that `sample_redshift` reads (line 126); no method ever
assigns it. -/
structure SamplingState where
  redshift_bins : Option (List ℝ)
  redshift_cdf : Option (List ℝ)
  redshif_cdf : Option (List ℝ)

/-- The state right after `SourcePopulation.__init__`, which assigns none
of the sampling-table attributes. -/
def freshSamplingState : SamplingState := ⟨none, none, none⟩

/-- `setup_redshift_cdf(zmax, zmin=0.0005, bins=10000)` (lines 110-120):
assigns `self.redshift_bins` and `self.redshift_cdf`; the misspelled
`redshif_cdf` remains unassigned. -/
def setup_redshift_cdf (pop : SourcePopulation) (zmax : ℚ)
    (zmin : ℚ := 5 / 10000) (bins : ℕ := 10000) : SamplingState :=
  { redshift_bins := some ((redshift_bins zmin zmax bins).map (fun zb : ℚ => (zb : ℝ)))
    redshift_cdf := some (redshift_cdf_list pop zmin zmax bins)
    redshif_cdf := none }

open Classical in
/-- `np.searchsorted(a, v)` with the default `side='left'`: the first
index whose entry is `≥ v` (ties resolved to the lower index), or the
length when every entry is `< v`. -/
def searchsorted (a : List ℝ) (v : ℝ) : ℕ :=
  match a with
  | [] => 0
  | x :: xs => if v ≤ x then 0 else searchsorted xs v + 1

/-- `sample_redshift` for a single draw `u` (lines 122-128): it reads
`self.redshif_cdf` — an attribute never assigned, so this read raises
`AttributeError` — then locates the draw with `np.searchsorted` and
indexes `self.redshift_bins`. -/
def sample_redshift (s : SamplingState) (u : ℝ) : Except PyError ℝ :=
  match s.redshif_cdf with
  | none => Except.error (PyError.attributeError "redshif_cdf")
  | some cdf =>
    match s.redshift_bins with
    | none => Except.error (PyError.attributeError "redshift_bins")
    | some zbins =>
      match zbins.get? (searchsorted cdf u) with
      | none => Except.error PyError.indexError
      | some z => Except.ok z

/-- `true` exactly when the call outcome is the spec's
`SamplingTableNotBuilt` error. -/
def raisesSamplingTableNotBuilt : Except PyError ℝ → Bool
  | Except.error PyError.samplingTableNotBuilt => true
  | _ => false

/-! ### Claims C2 and C3 -/

/-- C2 (code bug): even after `setup_redshift_cdf` has built the table
(here with `zmax = 1` and the default `zmin`, `bins`), `sample_redshift`
raises `AttributeError` for `redshif_cdf`: the table is stored under
`redshift_cdf` but read back under the misspelled name `redshif_cdf`, so
no draw is ever returned. -/
theorem sample_redshift_after_build_attributeError :
    sample_redshift (setup_redshift_cdf demoPop 1) (1 / 2) =
      Except.error (PyError.attributeError "redshif_cdf") := rfl

/-- C3 counterexample: called before the table is built,
`sample_redshift` does not fail with the spec's `SamplingTableNotBuilt`;
it raises `AttributeError` for the (misspelled, never assigned)
attribute `redshif_cdf`. -/
theorem sample_redshift_before_build_cex :
    sample_redshift freshSamplingState (1 / 2) =
        Except.error (PyError.attributeError "redshif_cdf") ∧
      raisesSamplingTableNotBuilt (sample_redshift freshSamplingState (1 / 2))
        = false :=
  ⟨rfl, rfl⟩

/-- C3 (amended): if `sample_redshift` is called before
`setup_redshift_cdf` has ever been called on that instance, it fails —
with `AttributeError` for the attribute `redshif_cdf` (the code defines no
`SamplingTableNotBuilt` exception). -/
theorem sample_redshift_before_build_attributeError :
    ∀ u : ℝ, sample_redshift freshSamplingState u =
      Except.error (PyError.attributeError "redshif_cdf") :=
  fun _ => rfl

/-! ### Claim C4: properties of the sampling table -/

/-- Every running sum of a list of nonnegative reals is nonnegative. -/
lemma cumsum_mem_nonneg {l : List ℝ} (h : ∀ y ∈ l, 0 ≤ y) :
    ∀ y ∈ cumsum l, 0 ≤ y := by
  induction l with
  | nil => intro y hy; simp [cumsum] at hy
  | cons x xs ih =>
      intro y hy
      simp only [cumsum, List.mem_cons, List.mem_map] at hy
      have hx : 0 ≤ x := h x (List.mem_cons_self x xs)
      rcases hy with rfl | ⟨c, hc, rfl⟩
      · exact hx
      · have hc' : 0 ≤ c :=
          ih (fun y hy => h y (List.mem_cons_of_mem x hy)) c hc
        linarith

/-- The running sums of a list of nonnegative reals are non-decreasing. -/
lemma cumsum_chain_le {l : List ℝ} (h : ∀ y ∈ l, 0 ≤ y) :
    List.Chain' (fun a b => a ≤ b) (cumsum l) := by
  induction l with
  | nil => simp [cumsum]
  | cons x xs ih =>
      have htl : ∀ y ∈ xs, 0 ≤ y := fun y hy => h y (List.mem_cons_of_mem x hy)
      simp only [cumsum]
      rw [List.chain'_cons']
      refine ⟨?_, ?_⟩
      · intro y hy
        rw [List.head?_map] at hy
        cases hhead : (cumsum xs).head? with
        | none => rw [hhead] at hy; simp at hy
        | some c =>
            rw [hhead] at hy
            simp only [Option.map_some', Option.mem_def, Option.some.injEq] at hy
            subst hy
            have hc : 0 ≤ c :=
              cumsum_mem_nonneg htl c (List.mem_of_mem_head? hhead)
            linarith
      · rw [List.chain'_map]
        exact (ih htl).imp (fun a b hab => add_le_add_left hab x)

/-- The last running sum is the total sum. -/
lemma cumsum_getLast? (x : ℝ) (l : List ℝ) :
    (cumsum (x :: l)).getLast? = some (x + l.sum) := by
  induction l generalizing x with
  | nil => simp [cumsum]
  | cons y ys ih =>
      simp only [cumsum, List.map_cons, List.map_map]
      rw [List.getLast?_cons_cons]
      have hcomp : ((fun c => x + c) ∘ (fun c => y + c)) =
          (fun c => (x + y) + c) := by
        funext t
        simp [Function.comp, add_assoc]
      rw [hcomp]
      have := ih (x + y)
      simp only [cumsum] at this
      rw [this]
      simp [add_assoc]

/-- C4 counterexample: with the defaults `zmin = 0.0005`, `bins = 10000`
and `zmax = 1`, the table has 9995 redshift edges, not `bins = 10000`
(`np.arange(zmin, zmax, zmax/bins)` produces `⌈(zmax-zmin)/(zmax/bins)⌉`
values). -/
theorem setup_redshift_cdf_bin_count_cex :
    ((redshift_bins (5 / 10000) 1 10000).length == 10000) = false ∧
      (redshift_bins (5 / 10000) 1 10000).length = 9995 := by
  have hlen : (redshift_bins (5 / 10000) 1 10000).length = 9995 := by
    simp only [redshift_bins, arange, List.length_map, List.length_range]
    rw [show ((1 : ℚ) - 5 / 10000) / ((1 : ℚ) / (10000 : ℕ)) = ((9995 : ℤ) : ℚ)
      by norm_num]
    rw [Int.ceil_intCast]
    omega
  exact ⟨by rw [hlen]; decide, hlen⟩

/-- C4 (amended): for `0 < zmin < zmax`, `0 < bins` and a strictly
positive redshift distribution, `setup_redshift_cdf` constructs
`⌈(zmax - zmin)/(zmax/bins)⌉` evenly spaced redshift edges — 9995 rather
than `bins = 10000` at the defaults with `zmax = 1` — lying in
`[zmin, zmax)`, strictly increasing and starting above zero, and the
cumulative table it builds is monotonically non-decreasing with its last
entry exactly 1 after rescaling. -/
theorem build_sampling_table_properties
    (pop : SourcePopulation) (zmin zmax : ℚ) (bins : ℕ)
    (h0 : 0 < zmin) (hlt : zmin < zmax) (hbins : 0 < bins)
    (hRD : ∀ z : ℝ, 0 < pop.RedshiftDistribution z) :
    (redshift_bins zmin zmax bins).length =
        (⌈(zmax - zmin) / (zmax / (bins : ℚ))⌉).toNat ∧
      (∀ i (hi : i < (redshift_bins zmin zmax bins).length),
        (redshift_bins zmin zmax bins).get ⟨i, hi⟩ =
          zmin + (i : ℚ) * (zmax / (bins : ℚ))) ∧
      List.Chain' (fun a b => a < b) (redshift_bins zmin zmax bins) ∧
      (∀ x ∈ redshift_bins zmin zmax bins, 0 < x ∧ zmin ≤ x ∧ x < zmax) ∧
      List.Chain' (fun a b => a ≤ b) (redshift_cdf_list pop zmin zmax bins) ∧
      (redshift_cdf_list pop zmin zmax bins).getLast? = some 1 := by
  have hzmax : (0 : ℚ) < zmax := lt_trans h0 hlt
  have hbq : (0 : ℚ) < (bins : ℚ) := by exact_mod_cast hbins
  have hstep : (0 : ℚ) < zmax / (bins : ℚ) := div_pos hzmax hbq
  have hr : (0 : ℚ) < (zmax - zmin) / (zmax / (bins : ℚ)) :=
    div_pos (by linarith) hstep
  have hceil : (0 : ℤ) < ⌈(zmax - zmin) / (zmax / (bins : ℚ))⌉ :=
    Int.ceil_pos.mpr hr
  have hlen : (redshift_bins zmin zmax bins).length =
      (⌈(zmax - zmin) / (zmax / (bins : ℚ))⌉).toNat := by
    simp [redshift_bins, arange]
  have hmem : ∀ x ∈ redshift_bins zmin zmax bins,
      0 < x ∧ zmin ≤ x ∧ x < zmax := by
    intro x hx
    simp only [redshift_bins, arange, List.mem_map, List.mem_range] at hx
    obtain ⟨i, hi, rfl⟩ := hx
    have hi' : (i : ℤ) ≤ ⌈(zmax - zmin) / (zmax / (bins : ℚ))⌉ - 1 := by omega
    have hi2 : ((i : ℤ) : ℚ) ≤
        ((⌈(zmax - zmin) / (zmax / (bins : ℚ))⌉ - 1 : ℤ) : ℚ) := by
      exact_mod_cast hi'
    push_cast at hi2
    have hc1 : (⌈(zmax - zmin) / (zmax / (bins : ℚ))⌉ : ℚ) <
        (zmax - zmin) / (zmax / (bins : ℚ)) + 1 := Int.ceil_lt_add_one _
    have hi3 : (i : ℚ) < (zmax - zmin) / (zmax / (bins : ℚ)) := by linarith
    have hmul : (i : ℚ) * (zmax / (bins : ℚ)) <
        ((zmax - zmin) / (zmax / (bins : ℚ))) * (zmax / (bins : ℚ)) :=
      mul_lt_mul_of_pos_right hi3 hstep
    have hcancel : ((zmax - zmin) / (zmax / (bins : ℚ))) * (zmax / (bins : ℚ))
        = zmax - zmin := div_mul_cancel₀ _ (ne_of_gt hstep)
    have hnn : (0 : ℚ) ≤ (i : ℚ) * (zmax / (bins : ℚ)) :=
      mul_nonneg (Nat.cast_nonneg i) hstep.le
    exact ⟨by linarith, by linarith, by linarith⟩
  have hpdf_pos : ∀ y ∈ (redshift_bins zmin zmax bins).map
      (fun zb : ℚ => pop.RedshiftDistribution (zb : ℝ)), 0 < y := by
    intro y hy
    simp only [List.mem_map] at hy
    obtain ⟨zb, _, rfl⟩ := hy
    exact hRD _
  have hbins_ne : redshift_bins zmin zmax bins ≠ [] := by
    intro hnil
    have := hlen
    rw [hnil] at this
    simp only [List.length_nil] at this
    omega
  have hpdf_ne : (redshift_bins zmin zmax bins).map
      (fun zb : ℚ => pop.RedshiftDistribution (zb : ℝ)) ≠ [] :=
    fun hcontra => hbins_ne (List.map_eq_nil_iff.mp hcontra)
  obtain ⟨b, bs, hbs⟩ := List.exists_cons_of_ne_nil hpdf_ne
  have hbs_pos : ∀ y ∈ b :: bs, 0 < y := hbs ▸ hpdf_pos
  have hsum_pos : 0 < (b :: bs).sum :=
    List.sum_pos _ hbs_pos (List.cons_ne_nil b bs)
  have hcdf_eq : redshift_cdf_list pop zmin zmax bins =
      (cumsum (b :: bs)).map
        (fun y => y / ((cumsum (b :: bs)).getLast?.getD 0)) := by
    simp only [redshift_cdf_list]
    rw [hbs]
  have hT : (cumsum (b :: bs)).getLast?.getD 0 = (b :: bs).sum := by
    rw [cumsum_getLast?]
    simp [List.sum_cons]
  refine ⟨hlen, ?_, ?_, hmem, ?_, ?_⟩
  · intro i hi
    simp [redshift_bins, arange]
  · apply List.Pairwise.chain'
    simp only [redshift_bins, arange]
    rw [List.pairwise_map]
    refine (List.pairwise_lt_range _).imp ?_
    intro a c hac
    have hq : (a : ℚ) < (c : ℚ) := by exact_mod_cast hac
    have := mul_lt_mul_of_pos_right hq hstep
    linarith
  · rw [hcdf_eq]
    simp only [hT]
    rw [List.chain'_map]
    refine (cumsum_chain_le (fun y hy => (hbs_pos y hy).le)).imp ?_
    intro a c hac
    exact (div_le_div_iff_of_pos_right hsum_pos).mpr hac
  · rw [hcdf_eq]
    simp only [hT]
    rw [List.getLast?_map, cumsum_getLast?]
    simp only [Option.map_some', Option.some.injEq, List.sum_cons]
    exact div_self (ne_of_gt hsum_pos)

/-- C4 witness: the amended table properties instantiated at the concrete
population `demoPop` with `zmin = 1/2`, `zmax = 1`, `bins = 2`. -/
theorem build_sampling_table_properties_witness :
    List.Chain' (fun a b => a ≤ b) (redshift_cdf_list demoPop (1 / 2) 1 2) ∧
      (redshift_cdf_list demoPop (1 / 2) 1 2).getLast? = some 1 := by
  have h := build_sampling_table_properties demoPop (1 / 2) 1 2 (by norm_num)
    (by norm_num) (by norm_num) (fun z => by
      simp only [SourcePopulation.RedshiftDistribution, demoPop, constProvider]
      positivity)
  exact ⟨h.2.2.2.2.1, h.2.2.2.2.2⟩

/-! ### Claim C8: Nsources -/

/-- `RedshiftIntegral` under the idealized integrator is the interval
integral of the redshift distribution from 0 to `zmax`. -/
lemma redshiftIntegral_realQuad (pop : SourcePopulation) (zmax : ℝ) :
    pop.RedshiftIntegral realQuad zmax =
      ∫ x in (0 : ℝ)..zmax, pop.RedshiftDistribution x := rfl

/-- With a continuous distribution, `RedshiftIntegral` is strictly
increasing on nonnegative horizons. -/
lemma redshiftIntegral_strictMonoOn (pop : SourcePopulation)
    (hcont : Continuous pop.RedshiftDistribution)
    (hpos : ∀ z : ℝ, 0 < pop.RedshiftDistribution z)
    {z1 z2 : ℝ} (_h1 : 0 ≤ z1) (h12 : z1 < z2) :
    pop.RedshiftIntegral realQuad z1 < pop.RedshiftIntegral realQuad z2 := by
  rw [redshiftIntegral_realQuad, redshiftIntegral_realQuad]
  have hi1 : IntervalIntegrable pop.RedshiftDistribution
      MeasureTheory.volume 0 z1 := hcont.intervalIntegrable 0 z1
  have hi2 : IntervalIntegrable pop.RedshiftDistribution
      MeasureTheory.volume z1 z2 := hcont.intervalIntegrable z1 z2
  have hsplit : (∫ x in (0 : ℝ)..z1, pop.RedshiftDistribution x) +
      (∫ x in z1..z2, pop.RedshiftDistribution x) =
      ∫ x in (0 : ℝ)..z2, pop.RedshiftDistribution x :=
    intervalIntegral.integral_add_adjacent_intervals hi1 hi2
  have hmid : 0 < ∫ x in z1..z2, pop.RedshiftDistribution x :=
    intervalIntegral.intervalIntegral_pos_of_pos hi2 hpos h12
  linarith

/-- `RedshiftIntegral` is positive at positive horizons (continuous,
positive distribution). -/
lemma redshiftIntegral_pos (pop : SourcePopulation)
    (hcont : Continuous pop.RedshiftDistribution)
    (hpos : ∀ z : ℝ, 0 < pop.RedshiftDistribution z)
    {z : ℝ} (hz : 0 < z) : 0 < pop.RedshiftIntegral realQuad z := by
  have h0 : pop.RedshiftIntegral realQuad 0 = 0 := by
    rw [redshiftIntegral_realQuad]
    exact intervalIntegral.integral_same
  have := redshiftIntegral_strictMonoOn pop hcont hpos (le_refl 0) hz
  rw [h0] at this
  exact this

/-- C8: `Nsources(density, zmax)` equals
`density * comoving_volume(zlocal) / (RedshiftIntegral(zlocal) /
RedshiftIntegral(zmax))` with `zlocal = 0.01`; with the `NoEvolution` law
(`evolution ≡ 1`), a continuous strictly positive differential comoving
volume and a positive local comoving volume (the standard-cosmology
provider contract), it is positive (and in this real-number model finite)
at `density = 1e-7`, `zmax = 0.1`, and for every fixed `density > 0` it is
strictly increasing in `zmax` over positive horizons. -/
theorem Nsources_formula_positive_monotone (pop : SourcePopulation)
    (hev : pop.evolution = fun _ => (1 : ℝ))
    (hc : Continuous pop.cosmology.diff_comoving_volume)
    (hdv : ∀ z : ℝ, 0 < pop.cosmology.diff_comoving_volume z)
    (hvc : 0 < pop.cosmology.comoving_volume zlocal) :
    (∀ density zmax : ℝ, pop.Nsources realQuad density zmax =
        density * pop.cosmology.comoving_volume zlocal /
          (pop.RedshiftIntegral realQuad zlocal /
            pop.RedshiftIntegral realQuad zmax)) ∧
      (0 < pop.Nsources realQuad 1e-7 0.1) ∧
      (∀ density z1 z2 : ℝ, 0 < density → 0 < z1 → z1 < z2 →
        pop.Nsources realQuad density z1 < pop.Nsources realQuad density z2) := by
  have hRD : ∀ z : ℝ, 0 < pop.RedshiftDistribution z := by
    intro z
    simp only [SourcePopulation.RedshiftDistribution, hev]
    have := hdv z
    have hpi := Real.pi_pos
    nlinarith
  have hfun : pop.RedshiftDistribution =
      fun z => 4 * π * 1 * pop.cosmology.diff_comoving_volume z := by
    funext z
    simp only [SourcePopulation.RedshiftDistribution, hev]
  have hcont : Continuous pop.RedshiftDistribution := by
    rw [hfun]
    exact (continuous_const.mul continuous_const).mul hc
  have hzl : (0 : ℝ) < zlocal := by norm_num [zlocal]
  have hRIl : 0 < pop.RedshiftIntegral realQuad zlocal :=
    redshiftIntegral_pos pop hcont hRD hzl
  have hformula : ∀ density zmax : ℝ, pop.Nsources realQuad density zmax =
      density * pop.cosmology.comoving_volume zlocal /
        (pop.RedshiftIntegral realQuad zlocal /
          pop.RedshiftIntegral realQuad zmax) := fun _ _ => rfl
  refine ⟨hformula, ?_, ?_⟩
  · rw [hformula]
    have hRIz : 0 < pop.RedshiftIntegral realQuad 0.1 :=
      redshiftIntegral_pos pop hcont hRD (by norm_num)
    have hnum : (0 : ℝ) < 1e-7 * pop.cosmology.comoving_volume zlocal := by
      have : (0 : ℝ) < 1e-7 := by norm_num
      exact mul_pos this hvc
    exact div_pos hnum (div_pos hRIl hRIz)
  · intro density z1 z2 hd h1 h12
    rw [hformula, hformula, div_div_eq_mul_div, div_div_eq_mul_div]
    have hmono := redshiftIntegral_strictMonoOn pop hcont hRD h1.le h12
    have hdv2 : 0 < density * pop.cosmology.comoving_volume zlocal :=
      mul_pos hd hvc
    rw [div_lt_div_iff_of_pos_right hRIl]
    exact (mul_lt_mul_left hdv2).mpr hmono

/-- C8 witness: positivity at the concrete population `demoPop` (whose
`evolution` is constantly 1 and whose provider functions are constantly 1,
hence continuous and positive), `density = 1e-7`, `zmax = 0.1`. -/
theorem Nsources_formula_positive_monotone_witness :
    0 < demoPop.Nsources realQuad 1e-7 0.1 :=
  (Nsources_formula_positive_monotone demoPop rfl continuous_const
    (fun _ => one_pos) one_pos).2.1
